import Mathlib

/-!
Shallow embedding of the `j2::MutexString` synchronized string wrapper
(`src/src/MutexString.hpp`, `src/src/MutexString.cpp`).

The buffer `s_ : std::string` is modelled as `List Char`.  A single-call
operation that can throw `std::out_of_range` (the spec's BoundsError) or
`std::system_error`, or that has undefined behavior on some inputs, returns
an `MRes`; a thrown exception leaves the buffer unchanged, which the
embedding expresses by returning no new buffer on the error constructors.
`const char*` arguments are modelled as `Option (List Char)` with `none`
for the null pointer; every wrapper method guards with `(s ? s : "")`,
embedded as `Option.getD [] `.
-/

namespace J2

/-- Result of one single-call operation: a normal value, a thrown
`std::out_of_range` (BoundsError), a thrown `std::system_error` from the
lock layer, or undefined behavior. -/
inductive MRes (α : Type) where
  | ok : α → MRes α
  | boundsError : MRes α
  | lockError : MRes α
  | ub : MRes α

deriving instance DecidableEq for MRes

/-- `char MutexString::at(size_t) const`: `return s_.at(pos);` —
`std::string::at` throws `std::out_of_range` iff `pos >= size()`. -/
def strAt (s : List Char) (pos : Nat) : MRes Char :=
  if h : pos < s.length then .ok (s.get ⟨pos, h⟩) else .boundsError

/-- `char MutexString::operator[](size_t) const`: `return s_[pos];` —
const `std::string::operator[]` does no bounds check: for `pos < size()` it
yields the element, for `pos == size()` it yields the null character, and
for `pos > size()` the behavior is undefined. -/
def strIndex (s : List Char) (pos : Nat) : MRes Char :=
  if h : pos < s.length then .ok (s.get ⟨pos, h⟩)
  else if pos = s.length then .ok (Char.ofNat 0)
  else .ub

/-- `void MutexString::set(size_t, char)`: `s_.at(pos) = ch;` — throws
`std::out_of_range` (before writing) iff `pos >= size()`, else writes the
element at `pos`. -/
def strSet (s : List Char) (pos : Nat) (ch : Char) : MRes (List Char) :=
  if pos < s.length then .ok (s.set pos ch) else .boundsError

/-- `char MutexString::front() const`: `return s_.front();` — undefined on
an empty buffer, otherwise the first character. -/
def strFront (s : List Char) : MRes Char :=
  match s with
  | [] => .ub
  | c :: _ => .ok c

/-- `char MutexString::back() const`: `return s_.back();` — undefined on an
empty buffer, otherwise the last character. -/
def strBack (s : List Char) : MRes Char :=
  match s.getLast? with
  | none => .ub
  | some c => .ok c

/-- `void MutexString::front(char)`: `s_.front() = ch;` — undefined on an
empty buffer, otherwise writes through the reference to element 0. -/
def strFrontSet (s : List Char) (ch : Char) : MRes (List Char) :=
  match s with
  | [] => .ub
  | _ :: _ => .ok (s.set 0 ch)

/-- `void MutexString::back(char)`: `s_.back() = ch;` — undefined on an
empty buffer, otherwise writes through the reference to the last element. -/
def strBackSet (s : List Char) (ch : Char) : MRes (List Char) :=
  match s with
  | [] => .ub
  | _ :: _ => .ok (s.set (s.length - 1) ch)

/-- `void MutexString::push_back(char)`: `s_.push_back(ch);`. -/
def strPushBack (s : List Char) (ch : Char) : List Char :=
  s ++ [ch]

/-- `void MutexString::pop_back()`: `s_.pop_back();` — undefined on an
empty buffer, otherwise removes the last character. -/
def strPopBack (s : List Char) : MRes (List Char) :=
  match s with
  | [] => .ub
  | _ :: _ => .ok s.dropLast

/-- `MutexString::insert(size_t, const std::string&)`: `s_.insert(pos, s);`
— `std::string::insert` throws `std::out_of_range` iff `pos > size()`,
else splices the argument in at `pos`. -/
def strInsert (s : List Char) (pos : Nat) (t : List Char) : MRes (List Char) :=
  if s.length < pos then .boundsError
  else .ok (s.take pos ++ t ++ s.drop pos)

/-- `MutexString::insert(size_t, size_t, char)`: `s_.insert(pos, count, ch);`
— throws `std::out_of_range` iff `pos > size()`, else splices `count`
copies of `ch` in at `pos`. -/
def strInsertFill (s : List Char) (pos count : Nat) (ch : Char) : MRes (List Char) :=
  if s.length < pos then .boundsError
  else .ok (s.take pos ++ List.replicate count ch ++ s.drop pos)

/-- `MutexString::erase(size_t, size_t)`: `s_.erase(pos, count);` — throws
`std::out_of_range` iff `pos > size()`, else removes
`min count (size - pos)` characters starting at `pos`. -/
def strErase (s : List Char) (pos count : Nat) : MRes (List Char) :=
  if s.length < pos then .boundsError
  else .ok (s.take pos ++ s.drop (pos + min count (s.length - pos)))

/-- `MutexString::replace(size_t, size_t, const std::string&)`:
`s_.replace(pos, count, s);` — throws `std::out_of_range` iff
`pos > size()`, else replaces `min count (size - pos)` characters starting
at `pos` by the argument. -/
def strReplace (s : List Char) (pos count : Nat) (t : List Char) : MRes (List Char) :=
  if s.length < pos then .boundsError
  else .ok (s.take pos ++ t ++ s.drop (pos + min count (s.length - pos)))

/-- `std::string MutexString::substr(size_t, size_t) const`:
`return s_.substr(pos, count);` — throws `std::out_of_range` iff
`pos > size()`, else returns an owned copy of at most `count` characters
starting at `pos`. -/
def strSubstr (s : List Char) (pos count : Nat) : MRes (List Char) :=
  if s.length < pos then .boundsError
  else .ok ((s.drop pos).take count)

/-- `void MutexString::resize(size_t, char)`: `s_.resize(n, ch);`. -/
def strResize (s : List Char) (n : Nat) (ch : Char) : List Char :=
  if n ≤ s.length then s.take n
  else s ++ List.replicate (n - s.length) ch

/-- `std::string MutexString::str() const`: `return s_;` — an owned copy
of the whole buffer. -/
def strSnapshot (s : List Char) : List Char :=
  s

/-- Claim C1 counterexample: on the empty buffer the position `0` is
outside the valid range (`at` raises BoundsError there), yet
`operator[]` does not raise BoundsError — it returns the null character. -/
theorem C1_counterexample :
    strAt [] 0 = .boundsError ∧
    strIndex [] 0 = .ok (Char.ofNat 0) ∧
    strIndex [] 0 ≠ (.boundsError : MRes Char) := by
  refine ⟨rfl, rfl, ?_⟩
  decide

/-- Claim C1 (amended): for every out-of-range position, `at(pos)` and
`set(pos, ch)` raise BoundsError and leave the buffer unchanged, but
`operator[](pos)` performs no bounds check: at `pos` equal to the length
it returns the null character instead of raising, and beyond the length
its behavior is undefined. -/
theorem C1_ok (s : List Char) (pos : Nat) (ch : Char) (h : s.length ≤ pos) :
    strAt s pos = .boundsError ∧
    strSet s pos ch = .boundsError ∧
    strIndex s s.length = .ok (Char.ofNat 0) ∧
    (s.length < pos → strIndex s pos = .ub) := by
  have hnot : ¬ pos < s.length := Nat.not_lt.mpr h
  refine ⟨?_, ?_, ?_, ?_⟩
  · simp [strAt, hnot]
  · simp [strSet, hnot]
  · simp [strIndex]
  · intro hlt
    have h1 : ¬ pos < s.length := Nat.not_lt.mpr (Nat.le_of_lt hlt)
    have h2 : pos ≠ s.length := Nat.ne_of_gt hlt
    simp [strIndex, h1, h2]

/-- Claim C1 witness: the amended statement instantiated at the buffer
"a" with position 2. -/
theorem C1_witness :
    (['a'] : List Char).length ≤ 2 ∧
    (strAt ['a'] 2 = .boundsError ∧
     strSet ['a'] 2 'z' = .boundsError ∧
     strIndex ['a'] (['a'] : List Char).length = .ok (Char.ofNat 0) ∧
     ((['a'] : List Char).length < 2 → strIndex ['a'] 2 = .ub)) :=
  ⟨by decide, C1_ok ['a'] 2 'z' (by decide)⟩

/-- Claim C4: `erase(pos, count)` with `pos` strictly greater than the
length raises BoundsError (leaving the buffer unchanged), and with a valid
`pos` and `count` at least the remaining length it erases through the end,
leaving exactly the first `pos` characters. -/
theorem C4_ok (s : List Char) (pos count : Nat) :
    (s.length < pos → strErase s pos count = .boundsError) ∧
    (pos ≤ s.length → s.length - pos ≤ count →
      strErase s pos count = .ok (s.take pos)) := by
  constructor
  · intro h
    simp [strErase, h]
  · intro h1 h2
    have hnot : ¬ s.length < pos := Nat.not_lt.mpr h1
    have hmin : min count (s.length - pos) = s.length - pos :=
      Nat.min_eq_right h2
    have hsum : pos + (s.length - pos) = s.length := Nat.add_sub_cancel' h1
    simp [strErase, hnot, hmin, hsum]

/-- Claim C4 witness: the two erase behaviors instantiated on the buffer
"ab", at the invalid position 3 and at the valid position 1 with an
over-long count. -/
theorem C4_witness :
    (strErase ['a', 'b'] 3 1 = .boundsError) ∧
    (strErase ['a', 'b'] 1 5 = .ok ['a']) :=
  ⟨(C4_ok ['a', 'b'] 3 1).1 (by decide),
   (C4_ok ['a', 'b'] 1 5).2 (by decide) (by decide)⟩

/-- Claim C5: the single-threaded sequence from "start" —
`insert(0, "[")`, `push_back(']')`, `insert(1, 3, '*')`,
`insert(size, " tail")` — yields "[start", "[start]", "[***start]" and
"[***start] tail" in order. -/
theorem C5_ok :
    strInsert "start".toList 0 "[".toList = .ok "[start".toList ∧
    strPushBack "[start".toList ']' = "[start]".toList ∧
    strInsertFill "[start]".toList 1 3 '*' = .ok "[***start]".toList ∧
    strInsert "[***start]".toList ("[***start]".toList.length) " tail".toList
      = .ok "[***start] tail".toList := by
  refine ⟨?_, ?_, ?_, ?_⟩ <;> decide

/-- Helper: writing through the reference to the last element of a
non-empty list replaces exactly the last character and leaves the
preceding characters unchanged. -/
theorem list_set_last_eq (c : Char) (t : List Char) (ch : Char) :
    (c :: t).set ((c :: t).length - 1) ch = (c :: t).dropLast ++ [ch] := by
  induction t generalizing c with
  | nil => simp
  | cons d t' ih =>
    have h1 : (c :: d :: t').length - 1 = t'.length + 1 := by
      simp
    have h2 : (d :: t').length - 1 = t'.length := by
      simp
    calc (c :: d :: t').set ((c :: d :: t').length - 1) ch
        = c :: (d :: t').set t'.length ch := by rw [h1]; rfl
      _ = c :: ((d :: t').dropLast ++ [ch]) := by rw [← h2, ih]
      _ = (c :: d :: t').dropLast ++ [ch] := by simp

/-- Claim C10: on a non-empty buffer, `front()` is the first character,
`back()` the last, `pop_back()` removes exactly the last character, and
the setters `front(ch)`/`back(ch)` replace exactly the first/last
character leaving the others unchanged; on an empty buffer all five are
undefined behavior, not a BoundsError. -/
theorem C10_ok (c ch : Char) (t : List Char) :
    strFront (c :: t) = .ok c ∧
    strBack (c :: t) = .ok ((c :: t).getLast (List.cons_ne_nil c t)) ∧
    strPopBack (c :: t) = .ok ((c :: t).dropLast) ∧
    strFrontSet (c :: t) ch = .ok (ch :: t) ∧
    strBackSet (c :: t) ch = .ok ((c :: t).dropLast ++ [ch]) ∧
    strFront [] = (.ub : MRes Char) ∧
    strBack [] = (.ub : MRes Char) ∧
    strPopBack [] = (.ub : MRes (List Char)) ∧
    strFrontSet [] ch = .ub ∧
    strBackSet [] ch = .ub ∧
    (.ub : MRes Char) ≠ .boundsError ∧
    (.ub : MRes (List Char)) ≠ .boundsError := by
  refine ⟨rfl, ?_, rfl, rfl, ?_, rfl, rfl, rfl, rfl, rfl, by decide, by decide⟩
  · rw [strBack, List.getLast?_eq_getLast (c :: t) (List.cons_ne_nil c t)]
  · rw [strBackSet, list_set_last_eq]

/-- `MutexString::MutexString(const char*)`: `s_(s ? s : "")`. -/
def ctorFromCStr (p : Option (List Char)) : List Char :=
  p.getD []

/-- `MutexString::operator=(const char*)`: `s_ = (rhs ? rhs : "");`. -/
def opAssignCStr (p : Option (List Char)) : List Char :=
  p.getD []

/-- `void MutexString::assign(const char*)`: `s_ = (s ? s : "");`. -/
def assignCStr (p : Option (List Char)) : List Char :=
  p.getD []

/-- `MutexString::append(const char*)`: `s_.append(s ? s : "");`. -/
def appendCStr (s : List Char) (p : Option (List Char)) : List Char :=
  s ++ p.getD []

/-- `MutexString::operator+=(const char*)`: `s_ += (s ? s : "");`. -/
def plusEqCStr (s : List Char) (p : Option (List Char)) : List Char :=
  s ++ p.getD []

/-- `MutexString::insert(size_t, const char*)`:
`s_.insert(pos, s ? s : "");`. -/
def insertCStr (s : List Char) (pos : Nat) (p : Option (List Char)) : MRes (List Char) :=
  strInsert s pos (p.getD [])

/-- `MutexString::replace(size_t, size_t, const char*)`:
`s_.replace(pos, count, s ? s : "");`. -/
def replaceCStr (s : List Char) (pos count : Nat) (p : Option (List Char)) : MRes (List Char) :=
  strReplace s pos count (p.getD [])

/-- `bool MutexString::operator==(const char*) const`:
`return s_ == (rhs ? rhs : "");`. -/
def eqCStr (s : List Char) (p : Option (List Char)) : Bool :=
  s == p.getD []

/-- `std::string::find(str, pos)`: smallest index `i ≥ pos` at which the
pattern occurs in full, `none` standing for `npos`. -/
def strFind (hay pat : List Char) (pos : Nat) : Option Nat :=
  (List.range (hay.length + 1)).find?
    (fun i => decide (pos ≤ i) && ((hay.drop i).take pat.length == pat))

/-- `std::string::rfind(str, pos)`: largest index `i ≤ pos` at which the
pattern occurs in full, `none` standing for `npos`. -/
def strRfind (hay pat : List Char) (pos : Nat) : Option Nat :=
  ((List.range (hay.length + 1)).filter
    (fun i => decide (i ≤ pos) && ((hay.drop i).take pat.length == pat))).getLast?

/-- `std::string::find_first_of(str, pos)`: smallest index `i ≥ pos` whose
character belongs to the argument set, `none` standing for `npos`. -/
def strFindFirstOf (hay chars : List Char) (pos : Nat) : Option Nat :=
  (List.range hay.length).find?
    (fun i => decide (pos ≤ i) && chars.contains (hay.getD i (Char.ofNat 0)))

/-- `std::string::find_last_of(str, pos)`: largest index `i ≤ pos` whose
character belongs to the argument set, `none` standing for `npos`. -/
def strFindLastOf (hay chars : List Char) (pos : Nat) : Option Nat :=
  ((List.range hay.length).filter
    (fun i => decide (i ≤ pos) && chars.contains (hay.getD i (Char.ofNat 0)))).getLast?

/-- `std::string::find_first_not_of(str, pos)`: smallest index `i ≥ pos`
whose character does not belong to the argument set. -/
def strFindFirstNotOf (hay chars : List Char) (pos : Nat) : Option Nat :=
  (List.range hay.length).find?
    (fun i => decide (pos ≤ i) && !(chars.contains (hay.getD i (Char.ofNat 0))))

/-- `std::string::find_last_not_of(str, pos)`: largest index `i ≤ pos`
whose character does not belong to the argument set. -/
def strFindLastNotOf (hay chars : List Char) (pos : Nat) : Option Nat :=
  ((List.range hay.length).filter
    (fun i => decide (i ≤ pos) && !(chars.contains (hay.getD i (Char.ofNat 0))))).getLast?

/-- `MutexString::find(const char*, size_t)`:
`s_.find(s ? s : "", pos);`. -/
def findCStr (s : List Char) (p : Option (List Char)) (pos : Nat) : Option Nat :=
  strFind s (p.getD []) pos

/-- `MutexString::rfind(const char*, size_t)`:
`s_.rfind(s ? s : "", pos);`. -/
def rfindCStr (s : List Char) (p : Option (List Char)) (pos : Nat) : Option Nat :=
  strRfind s (p.getD []) pos

/-- `MutexString::find_first_of(const char*, size_t)`:
`s_.find_first_of(s ? s : "", pos);`. -/
def findFirstOfCStr (s : List Char) (p : Option (List Char)) (pos : Nat) : Option Nat :=
  strFindFirstOf s (p.getD []) pos

/-- `MutexString::find_last_of(const char*, size_t)`:
`s_.find_last_of(s ? s : "", pos);`. -/
def findLastOfCStr (s : List Char) (p : Option (List Char)) (pos : Nat) : Option Nat :=
  strFindLastOf s (p.getD []) pos

/-- `MutexString::find_first_not_of(const char*, size_t)`:
`s_.find_first_not_of(s ? s : "", pos);`. -/
def findFirstNotOfCStr (s : List Char) (p : Option (List Char)) (pos : Nat) : Option Nat :=
  strFindFirstNotOf s (p.getD []) pos

/-- `MutexString::find_last_not_of(const char*, size_t)`:
`s_.find_last_not_of(s ? s : "", pos);`. -/
def findLastNotOfCStr (s : List Char) (p : Option (List Char)) (pos : Nat) : Option Nat :=
  strFindLastNotOf s (p.getD []) pos

/-- Claim C8: every public operation taking a `const char*` —
construction, assignment, assign, append, `+=`, insert, replace,
comparison, and the whole search family — treats a null pointer exactly
like the empty string. -/
theorem C8_ok (s : List Char) (pos count : Nat) :
    ctorFromCStr none = ctorFromCStr (some []) ∧
    opAssignCStr none = opAssignCStr (some []) ∧
    assignCStr none = assignCStr (some []) ∧
    appendCStr s none = appendCStr s (some []) ∧
    plusEqCStr s none = plusEqCStr s (some []) ∧
    insertCStr s pos none = insertCStr s pos (some []) ∧
    replaceCStr s pos count none = replaceCStr s pos count (some []) ∧
    eqCStr s none = eqCStr s (some []) ∧
    findCStr s none pos = findCStr s (some []) pos ∧
    rfindCStr s none pos = rfindCStr s (some []) pos ∧
    findFirstOfCStr s none pos = findFirstOfCStr s (some []) pos ∧
    findLastOfCStr s none pos = findLastOfCStr s (some []) pos ∧
    findFirstNotOfCStr s none pos = findFirstNotOfCStr s (some []) pos ∧
    findLastNotOfCStr s none pos = findLastNotOfCStr s (some []) pos :=
  ⟨rfl, rfl, rfl, rfl, rfl, rfl, rfl, rfl, rfl, rfl, rfl, rfl, rfl, rfl⟩

/-- Debug-build state of a `MutexString::Locked` guard: the identity of
the owning container (a pointer, modelled as a `Nat`), the `mark_set_`
flag, and whether the `std::unique_lock` member still owns the mutex. -/
structure Locked where
  owner : Nat
  mark_set : Bool
  owns : Bool

deriving instance DecidableEq for Locked

/-- `Locked::Locked(s, m, owner)`: asserts
`tls_owner_ != owner_`, then sets `tls_owner_ = owner_` and
`mark_set_ = true`; the `unique_lock` member acquires the mutex.  `none`
models the fatal assertion. -/
def lockedAcquire (owner : Nat) (tls : Option Nat) : Option (Locked × Option Nat) :=
  if tls = some owner then none
  else some (Locked.mk owner true true, some owner)

/-- `Locked::~Locked()`: `if (mark_set_ && tls_owner_ == owner_)
tls_owner_ = nullptr;` — the marker is reset to null, not restored to a
saved prior value (the guard stores no prior value). -/
def lockedDtor (g : Locked) (tls : Option Nat) : Option Nat :=
  if g.mark_set = true ∧ tls = some g.owner then none else tls

/-- The `Locked` destructor's `unique_lock` member releases the mutex iff
it still owns it. -/
def lockedDtorReleases (g : Locked) : Bool :=
  g.owns

/-- `void Locked::unlock()`: `lock_.unlock();` throws `std::system_error`
when the lock is not owned; on success it then clears the reentrancy
marker (`tls_owner_ = nullptr; mark_set_ = false;`) when the marker still
names the owner. -/
def lockedUnlock (g : Locked) (tls : Option Nat) : MRes (Locked × Option Nat) :=
  if g.owns = true then
    if g.mark_set = true ∧ tls = some g.owner then
      .ok (Locked.mk g.owner false false, none)
    else
      .ok (Locked.mk g.owner g.mark_set false, tls)
  else .lockError

/-- Number of mutex releases performed by a successful `unlock()` call:
one when the lock is owned, none otherwise (the call throws). -/
def unlockReleases (g : Locked) : Nat :=
  if g.owns = true then 1 else 0

/-- `bool Locked::owns_lock() const`: `return lock_.owns_lock();`. -/
def ownsLock (g : Locked) : Bool :=
  g.owns

/-- Debug-build state of a `MutexString::ReentrancyMark` (used by the
batch-callback entry points `with_lock`/`with`): the container identity
and the saved previous marker value. -/
structure ReentrancyMark where
  self : Nat
  prev : Option Nat

deriving instance DecidableEq for ReentrancyMark

/-- `ReentrancyMark::ReentrancyMark(self)`: saves `prev = tls_owner_`,
asserts `tls_owner_ != self`, then sets `tls_owner_ = self`.  `none`
models the fatal assertion. -/
def rmCtor (self : Nat) (tls : Option Nat) : Option (ReentrancyMark × Option Nat) :=
  if tls = some self then none
  else some (ReentrancyMark.mk self tls, some self)

/-- `ReentrancyMark::~ReentrancyMark()`: `tls_owner_ = prev;` — restores
the saved previous marker value unconditionally. -/
def rmDtor (m : ReentrancyMark) (_tls : Option Nat) : Option Nat :=
  m.prev

/-- `CStrGuard::CStrGuard(s, m)`: acquires the mutex and captures
`s.c_str()`; it never reads or writes `tls_owner_`, so the thread-local
marker is unchanged across the raw view's construction and destruction. -/
def cstrGuardCtorTls (tls : Option Nat) : Option Nat :=
  tls

/-- Claim C2 counterexample: thread enters a Guard session on container 0
(marker becomes `some 0`), then a Guard session on container 1 (marker
becomes `some 1`); exiting the inner guard sets the marker to `none`, not
back to `some 0`. -/
theorem C2_counterexample :
    lockedAcquire 0 none = some (Locked.mk 0 true true, some 0) ∧
    lockedAcquire 1 (some 0) = some (Locked.mk 1 true true, some 1) ∧
    lockedDtor (Locked.mk 1 true true) (some 1) = none ∧
    (none : Option Nat) ≠ some 0 := by
  refine ⟨?_, ?_, ?_, ?_⟩ <;> decide

/-- Claim C2 (amended): for nested sessions on distinct containers,
exiting an inner batch-callback session restores the thread-local marker
to its prior value, and a raw view never touches the marker; but exiting
an inner Guard session does not restore the prior value — the Guard
destructor resets the marker to empty whenever it still names the guard's
container, so after B's Guard session ends inside A's, the marker is
empty rather than naming A. -/
theorem C2_ok (a b : Nat) (tls0 : Option Nat)
    (hA : tls0 ≠ some a) (hAB : a ≠ b) :
    lockedAcquire a tls0 = some (Locked.mk a true true, some a) ∧
    lockedAcquire b (some a) = some (Locked.mk b true true, some b) ∧
    lockedDtor (Locked.mk b true true) (some b) = none ∧
    rmCtor b (some a) = some (ReentrancyMark.mk b (some a), some b) ∧
    rmDtor (ReentrancyMark.mk b (some a)) (some b) = some a ∧
    cstrGuardCtorTls (some a) = some a := by
  have hab : (some a : Option Nat) ≠ some b := by
    intro h
    exact hAB (Option.some.inj h)
  refine ⟨?_, ?_, ?_, ?_, rfl, rfl⟩
  · simp [lockedAcquire, hA]
  · simp [lockedAcquire, hab]
  · simp [lockedDtor]
  · simp [rmCtor, hab]

/-- Claim C2 witness: the amended statement instantiated at containers 0
and 1 with an initially empty marker. -/
theorem C2_witness :
    (none : Option Nat) ≠ some 0 ∧ (0 : Nat) ≠ 1 ∧
    (lockedAcquire 0 none = some (Locked.mk 0 true true, some 0) ∧
     lockedAcquire 1 (some 0) = some (Locked.mk 1 true true, some 1) ∧
     lockedDtor (Locked.mk 1 true true) (some 1) = none ∧
     rmCtor 1 (some 0) = some (ReentrancyMark.mk 1 (some 0), some 1) ∧
     rmDtor (ReentrancyMark.mk 1 (some 0)) (some 1) = some 0 ∧
     cstrGuardCtorTls (some 0) = some 0) :=
  ⟨by decide, by decide, C2_ok 0 1 none (by decide) (by decide)⟩

/-- Claim C7: a freshly acquired guard owns the lock; the explicit early
`unlock()` releases it exactly once, after which `owns_lock()` is false
and destruction releases nothing further; a second explicit `unlock()`
raises instead of releasing again; a guard destroyed without early unlock
releases exactly once at destruction. -/
theorem C7_ok (owner : Nat) :
    lockedAcquire owner none = some (Locked.mk owner true true, some owner) ∧
    ownsLock (Locked.mk owner true true) = true ∧
    lockedUnlock (Locked.mk owner true true) (some owner)
      = .ok (Locked.mk owner false false, none) ∧
    unlockReleases (Locked.mk owner true true) = 1 ∧
    ownsLock (Locked.mk owner false false) = false ∧
    lockedDtorReleases (Locked.mk owner false false) = false ∧
    unlockReleases (Locked.mk owner false false) = 0 ∧
    lockedUnlock (Locked.mk owner false false) none = .lockError ∧
    lockedDtorReleases (Locked.mk owner true true) = true := by
  refine ⟨?_, rfl, ?_, rfl, rfl, rfl, rfl, rfl, rfl⟩
  · simp [lockedAcquire]
  · simp [lockedUnlock]

/-- How a two-container operation acquires the two mutexes:
`multiAcquire a b` is `std::scoped_lock(a, b)` — both mutexes are handed
together to `std::lock`'s deadlock-avoidance algorithm, which fixes no
sequential acquisition order; the two fields record only which mutex is
presented in which argument position.  `noLock` acquires nothing. -/
inductive LockPlan where
  | noLock : LockPlan
  | multiAcquire : Nat → Nat → LockPlan

deriving instance DecidableEq for LockPlan

/-- `void MutexString::swap(MutexString&)`: `if (this == &other) return;`
then `first = this < &other ? this : &other`,
`second = this < &other ? &other : this`,
`std::scoped_lock lock(first->m_, second->m_);` — the same two-mutex
`std::scoped_lock` (avoidance algorithm) as the assignment operators,
with the two mutexes presented sorted by instance address. -/
def swapLockPlan (ida idb : Nat) : LockPlan :=
  if ida = idb then .noLock
  else .multiAcquire (min ida idb) (max ida idb)

/-- `MutexString::operator=(const MutexString&)`:
`if (this != &other) scoped_lock lock(m_, other.m_);` — the two-mutex
`std::scoped_lock` (avoidance algorithm) with the mutexes presented in
call-argument order. -/
def copyAssignLockPlan (ida idb : Nat) : LockPlan :=
  if ida = idb then .noLock
  else .multiAcquire ida idb

/-- `MutexString::operator=(MutexString&&)`: identical lock structure to
the copy assignment. -/
def moveAssignLockPlan (ida idb : Nat) : LockPlan :=
  if ida = idb then .noLock
  else .multiAcquire ida idb

/-- Copy assignment's effect on the two buffers together with its lock
plan: for distinct instances the target takes the source's content and
the source is unchanged; for `this == &other` the body is skipped. -/
def copyAssign (ida idb : Nat) (sa sb : List Char) :
    (List Char × List Char) × LockPlan :=
  if ida = idb then ((sa, sb), .noLock)
  else ((sb, sb), .multiAcquire ida idb)

/-- Move assignment's effect: for distinct instances the target takes the
source's content and the moved-from source buffer is left in a
valid-but-unspecified state, represented by the arbitrary `moved`
argument; for `this == &other` the body is skipped. -/
def moveAssign (ida idb : Nat) (sa sb moved : List Char) :
    (List Char × List Char) × LockPlan :=
  if ida = idb then ((sa, sb), .noLock)
  else ((sb, moved), .multiAcquire ida idb)

/-- `swap`'s effect: for distinct instances the contents are exchanged
under the address-sorted presentation of the two-mutex `scoped_lock`;
for `this == &other` the method returns immediately. -/
def swapOp (ida idb : Nat) (sa sb : List Char) :
    (List Char × List Char) × LockPlan :=
  if ida = idb then ((sa, sb), .noLock)
  else ((sb, sa), .multiAcquire (min ida idb) (max ida idb))

/-- Claim C3 counterexample: copy assignment between the distinct
instances 1 and 0 presents both mutexes to the multi-lock primitive in
call-argument order — the presentation depends on the argument roles
(reversing them changes it) and differs from the address-sorted
presentation that `swap` uses for the same pair, so two-container
operations do not all use one consistent, instance-independent
identity-determined order. -/
theorem C3_counterexample :
    copyAssignLockPlan 1 0 = LockPlan.multiAcquire 1 0 ∧
    copyAssignLockPlan 1 0 ≠ copyAssignLockPlan 0 1 ∧
    copyAssignLockPlan 1 0 ≠ swapLockPlan 1 0 := by
  refine ⟨?_, ?_, ?_⟩ <;> decide

/-- Claim C3 (amended): every two-container operation between distinct
instances hands both locks to the same simultaneous deadlock-avoiding
multi-lock primitive (`std::scoped_lock` over both mutexes, `std::lock`'s
avoidance algorithm), which prevents circular-wait deadlock without
fixing any sequential identity-determined acquisition order; `swap`
differs from the assignment operators only in presenting the two mutexes
to that primitive sorted by instance address (an instance-independent
presentation), while copy and move assignment present them in
call-argument order. -/
theorem C3_ok (a b : Nat) (h : a ≠ b) :
    swapLockPlan a b = LockPlan.multiAcquire (min a b) (max a b) ∧
    swapLockPlan a b = swapLockPlan b a ∧
    copyAssignLockPlan a b = LockPlan.multiAcquire a b ∧
    moveAssignLockPlan a b = LockPlan.multiAcquire a b := by
  have h' : b ≠ a := fun hba => h hba.symm
  refine ⟨?_, ?_, ?_, ?_⟩
  · simp [swapLockPlan, h]
  · simp [swapLockPlan, h, h', Nat.min_comm, Nat.max_comm]
  · simp [copyAssignLockPlan, h]
  · simp [moveAssignLockPlan, h]

/-- Claim C3 witness: the amended statement instantiated at the distinct
instance identities 2 and 5. -/
theorem C3_witness :
    (2 : Nat) ≠ 5 ∧
    (swapLockPlan 2 5 = LockPlan.multiAcquire (min 2 5) (max 2 5) ∧
     swapLockPlan 2 5 = swapLockPlan 5 2 ∧
     copyAssignLockPlan 2 5 = LockPlan.multiAcquire 2 5 ∧
     moveAssignLockPlan 2 5 = LockPlan.multiAcquire 2 5) :=
  ⟨by decide, C3_ok 2 5 (by decide)⟩

/-- Claim C9: the self-directed cross-container operations — `a = a`,
`a = move(a)`, `swap(a, a)` — are guarded by an identity test, acquire no
lock at all (in particular they never acquire the same lock twice), and
leave the buffer content unchanged, whatever unspecified state a genuine
move would have left behind. -/
theorem C9_ok (ida : Nat) (s moved : List Char) :
    copyAssign ida ida s s = ((s, s), LockPlan.noLock) ∧
    moveAssign ida ida s s moved = ((s, s), LockPlan.noLock) ∧
    swapOp ida ida s s = ((s, s), LockPlan.noLock) := by
  refine ⟨?_, ?_, ?_⟩ <;> simp [copyAssign, moveAssign, swapOp]

/-- One single-call mutation of the container, covering the mutator
surface of the wrapper. -/
inductive Mut where
  | assignStr : List Char → Mut
  | setOp : Nat → Char → Mut
  | clearOp : Mut
  | pushBack : Char → Mut
  | popBack : Mut
  | appendStr : List Char → Mut
  | insertStr : Nat → List Char → Mut
  | insertFill : Nat → Nat → Char → Mut
  | eraseOp : Nat → Nat → Mut
  | replaceStr : Nat → Nat → List Char → Mut
  | resizeFill : Nat → Char → Mut

/-- A mutation that throws leaves the buffer unchanged (`std::string`
operations throw `std::out_of_range` before modifying); undefined
behavior is conservatively modelled as leaving the buffer unchanged. -/
def orUnchanged (s : List Char) : MRes (List Char) → List Char
  | .ok t => t
  | _ => s

/-- Effect of one mutation on the buffer, each case delegating to the
embedding of the corresponding wrapper method. -/
def mutApply : Mut → List Char → List Char
  | .assignStr t, _ => t
  | .setOp pos ch, s => orUnchanged s (strSet s pos ch)
  | .clearOp, _ => []
  | .pushBack ch, s => strPushBack s ch
  | .popBack, s => orUnchanged s (strPopBack s)
  | .appendStr t, s => s ++ t
  | .insertStr pos t, s => orUnchanged s (strInsert s pos t)
  | .insertFill pos n ch, s => orUnchanged s (strInsertFill s pos n ch)
  | .eraseOp pos n, s => orUnchanged s (strErase s pos n)
  | .replaceStr pos n t, s => orUnchanged s (strReplace s pos n t)
  | .resizeFill n ch, s => strResize s n ch

/-- A container together with the owned copies its caller has taken so
far: `str()`/`substr()` return by value (`std::string`, not a reference),
so each snapshot lives in storage disjoint from the buffer. -/
structure World where
  cont : List Char
  snaps : List (List Char)

/-- Taking a `str()` snapshot: the owned copy of the current content is
appended to the caller's snapshots; the container is untouched. -/
def takeStrSnapshot (w : World) : World :=
  World.mk w.cont (strSnapshot w.cont :: w.snaps)

/-- Taking a `substr(pos, count)` snapshot: on success the owned copy of
the selected range is appended to the caller's snapshots; a BoundsError
leaves both the container and the snapshots untouched. -/
def takeSubstrSnapshot (w : World) (pos count : Nat) : World :=
  match strSubstr w.cont pos count with
  | .ok v => World.mk w.cont (v :: w.snaps)
  | _ => w

/-- Mutating the container rewrites only the buffer; caller-held
snapshots are separate owned values. -/
def mutateWorld (μ : Mut) (w : World) : World :=
  World.mk (mutApply μ w.cont) w.snaps

/-- A whole sequence of single-call mutations, applied in order. -/
def mutateWorldList (ms : List Mut) (w : World) : World :=
  ms.foldl (fun w μ => mutateWorld μ w) w

/-- Helper: no sequence of mutations changes the caller-held snapshots. -/
theorem mutateWorldList_snaps (ms : List Mut) (w : World) :
    (mutateWorldList ms w).snaps = w.snaps := by
  induction ms generalizing w with
  | nil => rfl
  | cons μ ms ih =>
    show (mutateWorldList ms (mutateWorld μ w)).snaps = w.snaps
    rw [ih]
    rfl

/-- Claim C6: a `str()` snapshot, and a `substr(pos, count)` snapshot for
a valid `pos`, are owned copies: after every subsequent sequence of
mutations of the container the previously taken snapshot is unchanged and
still equals the content (or the selected substring of the content) at
the time it was taken. -/
theorem C6_ok (w : World) (ms : List Mut) (pos count : Nat)
    (h : pos ≤ w.cont.length) :
    (mutateWorldList ms (takeStrSnapshot w)).snaps = w.cont :: w.snaps ∧
    (mutateWorldList ms (takeSubstrSnapshot w pos count)).snaps
      = ((w.cont.drop pos).take count) :: w.snaps := by
  have hnot : ¬ w.cont.length < pos := Nat.not_lt.mpr h
  constructor
  · rw [mutateWorldList_snaps]
    rfl
  · rw [mutateWorldList_snaps]
    simp [takeSubstrSnapshot, strSubstr, hnot]

/-- Claim C6 witness: snapshots of the buffer "ab" survive a subsequent
`clear()` unchanged. -/
theorem C6_witness :
    1 ≤ ("ab".toList : List Char).length ∧
    ((mutateWorldList [Mut.clearOp] (takeStrSnapshot (World.mk "ab".toList []))).snaps
        = "ab".toList :: [] ∧
     (mutateWorldList [Mut.clearOp]
        (takeSubstrSnapshot (World.mk "ab".toList []) 1 5)).snaps
        = (("ab".toList.drop 1).take 5) :: []) :=
  ⟨by decide, C6_ok (World.mk "ab".toList []) [Mut.clearOp] 1 5 (by decide)⟩

end J2
